import Mathlib

/-!
Verification of the bot lifecycle orchestration and signed remote-call
engine of the drivbot service.

The JavaScript controllers are shallowly embedded as pure Lean functions:
the document store (users, bots) is an explicit state record, the remote
3Commas platform's answer to each HTTP call is an explicit parameter of
the operation (the code issues at most one remote call per operation),
and every operation returns the HTTP response it would send, the new
store state, and the list of remote requests it issued.
-/

/-! ## JSON values and JSON.stringify

JavaScript object payloads are modelled as a small JSON AST; the
serializer mirrors `JSON.stringify` for the values the controllers
build: no spacing, object fields in insertion order, fields whose value
is `undefined` omitted, `undefined` array elements printed as null. -/

inductive Json where
  | str (s : String)
  | num (n : Int)
  | bool (b : Bool)
  | null
  | undef
  | arr (items : List Json)
  | obj (fields : List (String × Json))

/-- Lowercase hex digit (also used by the digest hex encoding). -/
def hexDigit (n : Nat) : Char :=
  if n < 10 then Char.ofNat (48 + n) else Char.ofNat (87 + n)

/-- JSON.stringify string escaping: quote, backslash, the named control
escapes, and \u00XX for the remaining control characters. -/
def escapeChar (c : Char) : String :=
  if c = '"' then "\\\""
  else if c = '\\' then "\\\\"
  else if c = '\x08' then "\\b"
  else if c = '\x0c' then "\\f"
  else if c = '\n' then "\\n"
  else if c = '\r' then "\\r"
  else if c = '\t' then "\\t"
  else if c.toNat < 32 then
    "\\u00" ++ String.mk [hexDigit (c.toNat / 16), hexDigit (c.toNat % 16)]
  else String.mk [c]

def escapeJson (s : String) : String :=
  String.join (s.toList.map escapeChar)

mutual

def serializeJson : Json → String
  | .str s => "\"" ++ escapeJson s ++ "\""
  | .num n => toString n
  | .bool b => if b then "true" else "false"
  | .null => "null"
  | .undef => "null"
  | .arr items => "[" ++ String.intercalate "," (serializeItems items) ++ "]"
  | .obj fields => "\x7b" ++ String.intercalate "," (serializeFields fields) ++ "\x7d"

def serializeItems : List Json → List String
  | [] => []
  | x :: rest => serializeJson x :: serializeItems rest

def serializeFields : List (String × Json) → List String
  | [] => []
  | (k, v) :: rest =>
    match v with
    | .undef => serializeFields rest
    | v => ("\"" ++ escapeJson k ++ "\":" ++ serializeJson v) :: serializeFields rest

end

/-! ## SHA-256 and HMAC-SHA256 (crypto.createHmac("sha256", secret)),
words as Nat reduced mod 2^32 -/

def w32 (n : Nat) : Nat := n % 4294967296

def rotr32 (x n : Nat) : Nat := w32 ((x >>> n) ||| (x <<< (32 - n)))

def bigSigma0 (x : Nat) : Nat := (rotr32 x 2) ^^^ (rotr32 x 13) ^^^ (rotr32 x 22)

def bigSigma1 (x : Nat) : Nat := (rotr32 x 6) ^^^ (rotr32 x 11) ^^^ (rotr32 x 25)

def smallSigma0 (x : Nat) : Nat := (rotr32 x 7) ^^^ (rotr32 x 18) ^^^ (x >>> 3)

def smallSigma1 (x : Nat) : Nat := (rotr32 x 17) ^^^ (rotr32 x 19) ^^^ (x >>> 10)

def chFn (x y z : Nat) : Nat := (x &&& y) ^^^ ((x ^^^ 4294967295) &&& z)

def majFn (x y z : Nat) : Nat := (x &&& y) ^^^ (x &&& z) ^^^ (y &&& z)

def sha256K : List Nat :=
  [1116352408, 1899447441, 3049323471, 3921009573, 961987163, 1508970993,
   2453635748, 2870763221, 3624381080, 310598401, 607225278, 1426881987,
   1925078388, 2162078206, 2614888103, 3248222580, 3835390401, 4022224774,
   264347078, 604807628, 770255983, 1249150122, 1555081692, 1996064986,
   2554220882, 2821834349, 2952996808, 3210313671, 3336571891, 3584528711,
   113926993, 338241895, 666307205, 773529912, 1294757372, 1396182291,
   1695183700, 1986661051, 2177026350, 2456956037, 2730485921, 2820302411,
   3259730800, 3345764771, 3516065817, 3600352804, 4094571909, 275423344,
   430227734, 506948616, 659060556, 883997877, 958139571, 1322822218,
   1537002063, 1747873779, 1955562222, 2024104815, 2227730452, 2361852424,
   2428436474, 2756734187, 3204031479, 3329325298]

def sha256H0 : List Nat :=
  [1779033703, 3144134277, 1013904242, 2773480762,
   1359893119, 2600822924, 528734635, 1541459225]

/-- Big-endian byte expansion of a value into the given number of bytes. -/
def beBytes (numBytes v : Nat) : List Nat :=
  (List.range numBytes).map (fun i => (v >>> (8 * (numBytes - 1 - i))) % 256)

/-- SHA-256 padding: 0x80, zeros, then the 64-bit big-endian bit length. -/
def sha256Pad (msg : List Nat) : List Nat :=
  let z := (119 - msg.length % 64) % 64
  msg ++ [128] ++ List.replicate z 0 ++ beBytes 8 (msg.length * 8)

/-- Group bytes into big-endian 32-bit words. -/
def toWords : List Nat → List Nat
  | b0 :: b1 :: b2 :: b3 :: rest => (((b0 * 256 + b1) * 256 + b2) * 256 + b3) :: toWords rest
  | _ => []

/-- Split a byte list into 64-byte blocks. -/
def toBlocks (l : List Nat) : List (List Nat) :=
  if hl : l = [] then []
  else l.take 64 :: toBlocks (l.drop 64)
termination_by l.length
decreasing_by
  have hpos : 0 < l.length := List.length_pos.mpr hl
  simp [List.length_drop]
  omega

/-- Extend the 16 message-schedule words of a block to 64. -/
def extendSchedule (w0 : Array Nat) : Array Nat :=
  (List.range 48).foldl
    (fun w _ =>
      let i := w.size
      w.push (w32 (smallSigma1 (w.getD (i - 2) 0) + w.getD (i - 7) 0 +
        smallSigma0 (w.getD (i - 15) 0) + w.getD (i - 16) 0)))
    w0

def compressBlock (h : List Nat) (block : List Nat) : List Nat :=
  let ws := extendSchedule (Array.mk (toWords block))
  let init := (h.getD 0 0, h.getD 1 0, h.getD 2 0, h.getD 3 0,
               h.getD 4 0, h.getD 5 0, h.getD 6 0, h.getD 7 0)
  let fin := (List.range 64).foldl
    (fun acc i =>
      let (a, b, c, d, e, f, g, hh) := acc
      let t1 := w32 (hh + bigSigma1 e + chFn e f g + sha256K.getD i 0 + ws.getD i 0)
      let t2 := w32 (bigSigma0 a + majFn a b c)
      (w32 (t1 + t2), a, b, c, w32 (d + t1), e, f, g))
    init
  match fin with
  | (a, b, c, d, e, f, g, hh) =>
    [w32 (h.getD 0 0 + a), w32 (h.getD 1 0 + b), w32 (h.getD 2 0 + c),
     w32 (h.getD 3 0 + d), w32 (h.getD 4 0 + e), w32 (h.getD 5 0 + f),
     w32 (h.getD 6 0 + g), w32 (h.getD 7 0 + hh)]

def sha256Bytes (msg : List Nat) : List Nat :=
  let final := (toBlocks (sha256Pad msg)).foldl compressBlock sha256H0
  final.foldr (fun w acc => beBytes 4 w ++ acc) []

def byteToHex (b : Nat) : String :=
  String.mk [hexDigit (b / 16), hexDigit (b % 16)]

def bytesToHex (bs : List Nat) : String :=
  String.join (bs.map byteToHex)

def strBytes (s : String) : List Nat :=
  s.toUTF8.toList.map (fun b => b.toNat)

def hmacSha256Bytes (key msg : List Nat) : List Nat :=
  let k0 := if 64 < key.length then sha256Bytes key else key
  let kp := k0 ++ List.replicate (64 - k0.length) 0
  let ipad := kp.map (fun b => b ^^^ 54)
  let opad := kp.map (fun b => b ^^^ 92)
  sha256Bytes (opad ++ sha256Bytes (ipad ++ msg))

/-- crypto.createHmac("sha256", secret).update(message).digest("hex") -/
def hmacSha256Hex (secret message : String) : String :=
  bytesToHex (hmacSha256Bytes (strBytes secret) (strBytes message))

/-! ## Request signer (botController.js lines 12-32, config.js) -/

/-- config.threeCommas.apiPrefix = "/public/api" (config.js). -/
def apiBasePath : String := "/public/api"

/-- botController.js `buildStringToSign`: prefix, path, "?"+query when the
query string is truthy (non-empty), then `bodyString || ""`. -/
def buildStringToSign (path queryString bodyString : String) : String :=
  let qsPart := if queryString ≠ "" then "?" ++ queryString else ""
  let bodyPart := if bodyString = "" then "" else bodyString
  apiBasePath ++ path ++ qsPart ++ bodyPart

/-- botController.js `createSignatureFromParts`: HMAC-SHA256 of the
canonical string under the platform API secret, hex-encoded.  The secret
comes from the environment, so it is an explicit argument here. -/
def createSignatureFromParts (secret path queryString bodyString : String) : String :=
  hmacSha256Hex secret (buildStringToSign path queryString bodyString)

/-! ## Body bytes: signing versus transmission

In createBot (botController.js lines 199-216) the signature is computed
over `JSON.stringify(botPayload)` while the request is transmitted with
`axios.post(url, botPayload, ...)`; axios's default request transform
serializes a plain object with the same `JSON.stringify`, so those bytes
coincide, and likewise for updateBot and duplicateBot.  The empty-payload
POST operations (pauseBot, startBot and the panic-sell emergency stop)
instead sign the empty string (`createSignatureFromParts(path, "", "")`)
while transmitting the literal object `{}`, which axios serializes to a
two-byte body.  In the threeCommas.js interceptor (lines 18-30) the
signed body is `reqConfig.data ? JSON.stringify(reqConfig.data) : ""`
and axios transmits `JSON.stringify(reqConfig.data)` (empty when there
is no data). -/

/-- axios's default JSON request transform applied to a plain object:
JSON.stringify of the object. -/
def axiosJsonBody (j : Json) : String := serializeJson j

/-- Signed body in the threeCommas.js request interceptor (line 22). -/
def interceptorSignedBody : Option Json → String
  | some d => serializeJson d
  | none => ""

/-- Body axios transmits for a request routed through the interceptor. -/
def interceptorTransmittedBody : Option Json → String
  | some d => axiosJsonBody d
  | none => ""

/-! ## Data model

User (models/User.js) and BotRecord (models/bot.js).  Mongo ObjectIds
are modelled as Nat; JS numbers carried by these records are modelled as
Int (no float-specific behavior is involved in the claims). -/

structure User where
  uid : Nat
  userId : String
  threeCommasAccountId : Option Nat
deriving DecidableEq

structure BotRecord where
  id : Nat
  user : Nat
  name : String
  exchangeId : Nat
  pair : String
  strategy : String
  botType : String
  profitCurrency : String
  baseOrderSize : Int
  startOrderType : String
  takeProfitType : String
  targetProfitPercent : Int
  safetyOrderVolume : Int
  maxSafetyOrders : Int
  safetyOrderStepPercentage : Int
  stopLossPercentage : Int
  cooldown : Int
  note : String
  threeCommasBotId : Option Nat
  status : String
  totalDeals : Int
  totalProfit : Int
  configVersion : Int
deriving DecidableEq

/-- The document store: users and bot records, plus the next id the
repository will assign. -/
structure St where
  users : List User
  bots : List BotRecord
  nextId : Nat
deriving DecidableEq

/-- User.findOne({ userId }) -/
def findUser (st : St) (userId : String) : Option User :=
  st.users.find? (fun u => u.userId == userId)

/-- Resolving a user reference (mongoose populate). -/
def findUserById (st : St) (uid : Nat) : Option User :=
  st.users.find? (fun u => u.uid == uid)

/-- Bot.findById(botId) -/
def findBotById (st : St) (botId : Nat) : Option BotRecord :=
  st.bots.find? (fun b => b.id == botId)

/-- Bot.findOne({ user, name }) -/
def findBotByOwnerName (st : St) (uid : Nat) (name : String) : Option BotRecord :=
  st.bots.find? (fun b => b.user == uid && b.name == name)

/-- JS truthiness of an optional numeric field (null/undefined and 0 are
falsy). -/
def jsTruthyOptNat : Option Nat → Bool
  | none => false
  | some n => !(n == 0)

/-- JS `x || d` for an optional numeric value (0 falls back to the
default). -/
def jsOrInt (x : Option Int) (d : Int) : Int :=
  match x with
  | none => d
  | some v => if v = 0 then d else v

/-- JS `x || d` for an optional string value ("" falls back to the
default). -/
def jsOrStr (x : Option String) (d : String) : String :=
  match x with
  | none => d
  | some v => if v = "" then d else v

/-! ## Remote platform outcomes and operation results -/

/-- Outcome of the single remote create call an operation issues: the
remote platform either returns a created bot id or the call fails
(rejection or unreachability). -/
inductive RemoteCreate where
  | success (id : Nat)
  | failure (err : String)

/-- Outcome of a remote pause/start/update/delete call. -/
inductive RemoteCall where
  | success
  | failure (err : String)

/-- One HTTP request sent to the remote platform: its path (under the
base URL), the body string the signature digest was computed over, and
the JSON data object axios transmits (none for axios.delete). -/
structure SentRequest where
  path : String
  signedBody : String
  body : Option Json

/-- The body bytes axios actually puts on the wire: its default JSON
transform of the data object, empty when no body is sent. -/
def transmittedBody (r : SentRequest) : String :=
  match r.body with
  | some j => axiosJsonBody j
  | none => ""

/-- HTTP response returned by a controller. -/
structure HttpResp where
  status : Nat
  message : String
deriving DecidableEq

/-- Result of running one controller operation: the response, the store
state afterwards, and the remote requests issued, in order. -/
structure OpResult where
  resp : HttpResp
  st : St
  calls : List SentRequest

/-! ## createBot (botController.js lines 37-276) -/

structure CreateReq where
  userId : String
  botName : String
  direction : String
  botType : String
  pair : String
  profitCurrency : String
  baseOrderSize : Int
  startOrderType : String
  takeProfitType : String
  targetProfitPercent : Int
  safetyOrderVolume : Option Int
  maxSafetyOrders : Option Int
  safetyOrderStepPercentage : Option Int
  stopLossPercentage : Option Int
  cooldown : Option Int
  note : Option String
deriving DecidableEq

/-- Lines 58-69: `!userId || !botName || ...` — a required field that is
falsy (absent, empty string, or 0 for the numeric ones). -/
def missingRequiredCreate (req : CreateReq) : Bool :=
  req.userId == "" || req.botName == "" || req.direction == "" || req.botType == "" ||
  req.pair == "" || req.profitCurrency == "" || req.baseOrderSize == 0 ||
  req.startOrderType == "" || req.takeProfitType == "" || req.targetProfitPercent == 0

def isPairChar (c : Char) : Bool :=
  ('A' ≤ c && c ≤ 'Z') || ('0' ≤ c && c ≤ '9')

/-- The run after the underscore: non-empty, all pair characters (the
underscore itself is not a pair character, so a second underscore
fails). -/
def pairSecondRun (cs : List Char) : Bool :=
  !cs.isEmpty && cs.all isPairChar

/-- The rest of the first run, up to the single underscore. -/
def pairFirstRest : List Char → Bool
  | [] => false
  | c :: rest => if c = '_' then pairSecondRun rest else isPairChar c && pairFirstRest rest

/-- Line 77: /^[A-Z0-9]+_[A-Z0-9]+$/ — exactly one underscore separating
two non-empty uppercase-alphanumeric runs. -/
def validPairFormat (s : String) : Bool :=
  match s.toList with
  | [] => false
  | c :: rest => isPairChar c && pairFirstRest rest

def isValidEnum (val : String) (options : List String) : Bool :=
  options.contains val

/-- Lines 162-194: the botPayload object literal sent to the remote
create endpoint, in insertion order; `pairs` is undefined (hence omitted
from the serialized body) for single-pair bots. -/
def createPayloadJson (req : CreateReq) (u : User) : Json :=
  Json.obj
    [("name", .str req.botName),
     ("account_id", match u.threeCommasAccountId with | none => .undef | some a => .num (Int.ofNat a)),
     ("pair", .str req.pair),
     ("strategy", .str req.direction),
     ("bot_type", .str (if req.botType = "single" then "simple" else "composite")),
     ("profit_currency", .str req.profitCurrency),
     ("base_order_volume", .num req.baseOrderSize),
     ("start_order_type", .str req.startOrderType),
     ("take_profit_type", .str req.takeProfitType),
     ("take_profit", .num req.targetProfitPercent),
     ("safety_order_type", .str "market"),
     ("safety_order_volume", .num (jsOrInt req.safetyOrderVolume req.baseOrderSize)),
     ("max_safety_orders", .num (jsOrInt req.maxSafetyOrders 5)),
     ("safety_order_step_percentage", .num (jsOrInt req.safetyOrderStepPercentage 2)),
     ("safety_order_volume_type", .str "quote_currency"),
     ("max_active_deals", .num 1),
     ("active", .bool true),
     ("martingale_volume_coefficient", .num 1),
     ("martingale_step_coefficient", .num 1),
     ("stop_loss_percentage", .num (jsOrInt req.stopLossPercentage 0)),
     ("cooldown", .num (jsOrInt req.cooldown 0)),
     ("btc_price_limit", .num 0),
     ("strategy_list", .arr []),
     ("pairs", if req.botType = "multi" then .arr [.str req.pair] else .undef),
     ("base_order_volume_type", .str "quote_currency"),
     ("note", .str (jsOrStr req.note ("Bot created via API for " ++ req.userId)))]

/-- Lines 236-256: the mirror record persisted after a successful remote
create. -/
def mkNewBot (id : Nat) (u : User) (req : CreateReq) (remoteId : Nat) : BotRecord :=
  { id := id
    user := u.uid
    name := req.botName
    exchangeId := u.threeCommasAccountId.getD 0
    pair := req.pair
    strategy := req.direction
    botType := req.botType
    profitCurrency := req.profitCurrency
    baseOrderSize := req.baseOrderSize
    startOrderType := req.startOrderType
    takeProfitType := req.takeProfitType
    targetProfitPercent := req.targetProfitPercent
    safetyOrderVolume := jsOrInt req.safetyOrderVolume req.baseOrderSize
    maxSafetyOrders := jsOrInt req.maxSafetyOrders 5
    safetyOrderStepPercentage := jsOrInt req.safetyOrderStepPercentage 2
    stopLossPercentage := jsOrInt req.stopLossPercentage 0
    cooldown := jsOrInt req.cooldown 0
    note := jsOrStr req.note ("Bot created via API for " ++ req.userId)
    threeCommasBotId := some remoteId
    status := "running"
    totalDeals := 0
    totalProfit := 0
    configVersion := 1 }

/-- Lines 57-127: the input-validation prelude of createBot in source
order; the first failing check produces its 400 response, `none` means
every check passed. -/
def createValidation (req : CreateReq) : Option HttpResp :=
  if missingRequiredCreate req then
    some ⟨400, "All required fields are missing. Please check your input."⟩
  else if !validPairFormat req.pair then
    some ⟨400, "Invalid pair format. Use format like BTC_USDT, ETH_USDT"⟩
  else if !isValidEnum req.direction ["long", "short"] then
    some ⟨400, "Direction must be long or short"⟩
  else if !isValidEnum req.botType ["single", "multi"] then
    some ⟨400, "Bot type must be single or multi"⟩
  else if !isValidEnum req.profitCurrency ["quote", "base"] then
    some ⟨400, "Profit currency must be quote or base"⟩
  else if !isValidEnum req.startOrderType ["market", "limit"] then
    some ⟨400, "Start order type must be market or limit"⟩
  else if !isValidEnum req.takeProfitType ["total", "step"] then
    some ⟨400, "Take profit type must be total or step"⟩
  else if req.baseOrderSize ≤ 0 then
    some ⟨400, "Base order size must be greater than 0"⟩
  else if req.targetProfitPercent ≤ 0 ∨ 100 < req.targetProfitPercent then
    some ⟨400, "Target profit percentage must be between 0 and 100"⟩
  else none

/-- models/bot.js schema validators, run by Bot.save(): enum values and
the min/max bounds maxSafetyOrders 1-25, safetyOrderStepPercentage
0.1-50 (the 0.1 lower bound is stated as 1 <= 10*v over the Int-modelled
numbers), stopLossPercentage 0-100, cooldown >= 0, plus the required
non-empty strings.  A failing validator makes save() throw, which the
controllers' outer catch turns into a 500 with no write. -/
def botSchemaValid (b : BotRecord) : Bool :=
  !(b.name == "") && !(b.pair == "") &&
  ["long", "short"].contains b.strategy &&
  ["single", "multi"].contains b.botType &&
  ["quote", "base"].contains b.profitCurrency &&
  ["market", "limit"].contains b.startOrderType &&
  ["total", "step"].contains b.takeProfitType &&
  ["running", "paused", "stopped", "error"].contains b.status &&
  decide (1 ≤ b.maxSafetyOrders) && decide (b.maxSafetyOrders ≤ 25) &&
  decide (1 ≤ 10 * b.safetyOrderStepPercentage) && decide (b.safetyOrderStepPercentage ≤ 50) &&
  decide (0 ≤ b.stopLossPercentage) && decide (b.stopLossPercentage ≤ 100) &&
  decide (0 ≤ b.cooldown)

/-- exports.createBot: validation, user lookup, duplicate-name check,
remote create, then (only on remote success) newBot.save(), whose
mongoose schema validation failing surfaces as the outer catch's 500
with nothing persisted. -/
def createBot (req : CreateReq) (remote : RemoteCreate) (st : St) : OpResult :=
  match createValidation req with
  | some r => ⟨r, st, []⟩
  | none =>
    match findUser st req.userId with
    | none => ⟨⟨404, "User not found. Please check your user ID."⟩, st, []⟩
    | some user =>
      if !jsTruthyOptNat user.threeCommasAccountId then
        ⟨⟨400, "No 3Commas account found. Please connect your Binance account first."⟩, st, []⟩
      else
        match findBotByOwnerName st user.uid req.botName with
        | some _ =>
          ⟨⟨400, "A bot with this name already exists. Please choose a different name."⟩, st, []⟩
        | none =>
          match remote with
          | .failure _ =>
            ⟨⟨400, "Failed to create bot in 3Commas"⟩, st,
             [⟨"/ver1/bots", serializeJson (createPayloadJson req user),
               some (createPayloadJson req user)⟩]⟩
          | .success remoteId =>
            let newBot := mkNewBot st.nextId user req remoteId
            if botSchemaValid newBot then
              ⟨⟨201, "Bot created successfully in 3Commas"⟩,
               { st with bots := st.bots ++ [newBot], nextId := st.nextId + 1 },
               [⟨"/ver1/bots", serializeJson (createPayloadJson req user),
                 some (createPayloadJson req user)⟩]⟩
            else
              ⟨⟨500, "Bot creation failed"⟩, st,
               [⟨"/ver1/bots", serializeJson (createPayloadJson req user),
                 some (createPayloadJson req user)⟩]⟩

/-! ## validateOwnership, pauseBot, startBot, deleteBot
(binanceController.js lines 2123-2320) -/

/-- Lines 2123-2130: find the bot, populate its owner, and require the
owner's external userId to match the requester; a missing bot throws
"Bot not found", a missing or mismatched owner throws "Unauthorized
access".  Every caller turns a thrown error into a 403 response. -/
def validateOwnership (st : St) (botId : Nat) (userId : String) : Except String BotRecord :=
  match findBotById st botId with
  | none => .error "Bot not found"
  | some bot =>
    match findUserById st bot.user with
    | none => .error "Unauthorized access"
    | some owner =>
      if owner.userId = userId then .ok bot else .error "Unauthorized access"

/-- Replace the status of the bot with the given local id (bot.save()
after assigning bot.status). -/
def setBotStatus (st : St) (botId : Nat) (status : String) : St :=
  { st with bots := st.bots.map (fun b => if b.id == botId then { b with status := status } else b) }

/-- exports.pauseBot (lines 2163-2218): guard on status "running" and a
linked remote id, then the remote pause call, then the local write. -/
def pauseBot (botId : Nat) (userId : String) (remote : RemoteCall) (st : St) : OpResult :=
  match validateOwnership st botId userId with
  | .error msg => ⟨⟨403, msg⟩, st, []⟩
  | .ok bot =>
    if bot.status ≠ "running" then
      ⟨⟨400, "Bot is not currently running"⟩, st, []⟩
    else if !jsTruthyOptNat bot.threeCommasBotId then
      ⟨⟨400, "Bot not linked to 3Commas"⟩, st, []⟩
    else
      let path := "/ver1/bots/" ++ toString (bot.threeCommasBotId.getD 0) ++ "/pause"
      match remote with
      | .failure _ =>
        ⟨⟨400, "Failed to pause bot in 3Commas"⟩, st, [⟨path, "", some (Json.obj [])⟩]⟩
      | .success =>
        ⟨⟨200, "Bot paused successfully"⟩, setBotStatus st botId "paused",
         [⟨path, "", some (Json.obj [])⟩]⟩

/-- exports.startBot (lines 2221-2278): guard on status "paused" or
"stopped", remote start_new_deal call, then the local write. -/
def startBot (botId : Nat) (userId : String) (remote : RemoteCall) (st : St) : OpResult :=
  match validateOwnership st botId userId with
  | .error msg => ⟨⟨403, msg⟩, st, []⟩
  | .ok bot =>
    if bot.status ≠ "paused" ∧ bot.status ≠ "stopped" then
      ⟨⟨400, "Bot must be paused or stopped to start"⟩, st, []⟩
    else if !jsTruthyOptNat bot.threeCommasBotId then
      ⟨⟨400, "Bot not linked to 3Commas"⟩, st, []⟩
    else
      let path := "/ver1/bots/" ++ toString (bot.threeCommasBotId.getD 0) ++ "/start_new_deal"
      match remote with
      | .failure _ =>
        ⟨⟨400, "Failed to start bot in 3Commas"⟩, st, [⟨path, "", some (Json.obj [])⟩]⟩
      | .success =>
        ⟨⟨200, "Bot started successfully"⟩, setBotStatus st botId "running",
         [⟨path, "", some (Json.obj [])⟩]⟩

/-- exports.deleteBot (lines 2281-2320): after the ownership check, the
remote delete is attempted only when a remote id is linked, its failure
is only logged, and the local record is removed unconditionally. -/
def deleteBot (botId : Nat) (userId : String) (remote : RemoteCall) (st : St) : OpResult :=
  match validateOwnership st botId userId with
  | .error msg => ⟨⟨403, msg⟩, st, []⟩
  | .ok bot =>
    let calls : List SentRequest :=
      if jsTruthyOptNat bot.threeCommasBotId then
        [⟨"/ver1/bots/" ++ toString (bot.threeCommasBotId.getD 0), "", none⟩]
      else []
    ⟨⟨200, "Bot deleted successfully"⟩,
     { st with bots := st.bots.filter (fun b => !(b.id == botId)) }, calls⟩

/-! ## updateBot (botController.js lines 569-649) -/

/-- The update payload: `req.body` minus `userId` — the submitted subset
of the bot's updatable fields (mongoose findByIdAndUpdate applies it as
a field-wise $set). -/
structure UpdateData where
  name : Option String := none
  pair : Option String := none
  strategy : Option String := none
  botType : Option String := none
  profitCurrency : Option String := none
  baseOrderSize : Option Int := none
  startOrderType : Option String := none
  takeProfitType : Option String := none
  targetProfitPercent : Option Int := none
  safetyOrderVolume : Option Int := none
  maxSafetyOrders : Option Int := none
  safetyOrderStepPercentage : Option Int := none
  stopLossPercentage : Option Int := none
  cooldown : Option Int := none
  note : Option String := none
  status : Option String := none
deriving DecidableEq

/-- Bot.findByIdAndUpdate(botId, updateData): every submitted field
overwrites the record's field, unsubmitted fields are unchanged. -/
def applyUpdate (b : BotRecord) (u : UpdateData) : BotRecord :=
  { b with
    name := u.name.getD b.name
    pair := u.pair.getD b.pair
    strategy := u.strategy.getD b.strategy
    botType := u.botType.getD b.botType
    profitCurrency := u.profitCurrency.getD b.profitCurrency
    baseOrderSize := u.baseOrderSize.getD b.baseOrderSize
    startOrderType := u.startOrderType.getD b.startOrderType
    takeProfitType := u.takeProfitType.getD b.takeProfitType
    targetProfitPercent := u.targetProfitPercent.getD b.targetProfitPercent
    safetyOrderVolume := u.safetyOrderVolume.getD b.safetyOrderVolume
    maxSafetyOrders := u.maxSafetyOrders.getD b.maxSafetyOrders
    safetyOrderStepPercentage := u.safetyOrderStepPercentage.getD b.safetyOrderStepPercentage
    stopLossPercentage := u.stopLossPercentage.getD b.stopLossPercentage
    cooldown := u.cooldown.getD b.cooldown
    note := u.note.getD b.note
    status := u.status.getD b.status }

/-- The JSON body sent to the remote update endpoint: exactly the
submitted fields. -/
def updateDataJson (u : UpdateData) : Json :=
  Json.obj (List.filterMap id
    [u.name.map (fun v => ("name", Json.str v)),
     u.pair.map (fun v => ("pair", Json.str v)),
     u.strategy.map (fun v => ("strategy", Json.str v)),
     u.botType.map (fun v => ("botType", Json.str v)),
     u.profitCurrency.map (fun v => ("profitCurrency", Json.str v)),
     u.baseOrderSize.map (fun v => ("baseOrderSize", Json.num v)),
     u.startOrderType.map (fun v => ("startOrderType", Json.str v)),
     u.takeProfitType.map (fun v => ("takeProfitType", Json.str v)),
     u.targetProfitPercent.map (fun v => ("targetProfitPercent", Json.num v)),
     u.safetyOrderVolume.map (fun v => ("safetyOrderVolume", Json.num v)),
     u.maxSafetyOrders.map (fun v => ("maxSafetyOrders", Json.num v)),
     u.safetyOrderStepPercentage.map (fun v => ("safetyOrderStepPercentage", Json.num v)),
     u.stopLossPercentage.map (fun v => ("stopLossPercentage", Json.num v)),
     u.cooldown.map (fun v => ("cooldown", Json.num v)),
     u.note.map (fun v => ("note", Json.str v)),
     u.status.map (fun v => ("status", Json.str v))])

/-- The mongoose update validators findByIdAndUpdate runs with
runValidators: true: each submitted field is checked against its schema
validators (enum values, maxSafetyOrders 1-25, safetyOrderStepPercentage
0.1-50 stated as 1 <= 10*v over the Int model, stopLossPercentage 0-100,
cooldown >= 0, required non-empty strings); unsubmitted fields are not
re-validated.  A failing validator makes findByIdAndUpdate throw, which
the outer catch turns into a 500 with the record unchanged. -/
def updValid (u : UpdateData) : Bool :=
  (match u.name with | none => true | some s => !(s == "")) &&
  (match u.pair with | none => true | some s => !(s == "")) &&
  (match u.strategy with | none => true | some s => ["long", "short"].contains s) &&
  (match u.botType with | none => true | some s => ["single", "multi"].contains s) &&
  (match u.profitCurrency with | none => true | some s => ["quote", "base"].contains s) &&
  (match u.startOrderType with | none => true | some s => ["market", "limit"].contains s) &&
  (match u.takeProfitType with | none => true | some s => ["total", "step"].contains s) &&
  (match u.maxSafetyOrders with | none => true | some v => decide (1 ≤ v ∧ v ≤ 25)) &&
  (match u.safetyOrderStepPercentage with
   | none => true | some v => decide (1 ≤ 10 * v ∧ v ≤ 50)) &&
  (match u.stopLossPercentage with | none => true | some v => decide (0 ≤ v ∧ v ≤ 100)) &&
  (match u.cooldown with | none => true | some v => decide (0 ≤ v)) &&
  (match u.status with
   | none => true | some s => ["running", "paused", "stopped", "error"].contains s)

/-- exports.updateBot: userId guard, user lookup, ownership check (404
on missing or not owned), remote-id guard, remote patch, and only on
remote success the local findByIdAndUpdate with runValidators, whose
validation failing surfaces as the outer catch's 500 with the record
unchanged. -/
def updateBot (botId : Nat) (userId : String) (upd : UpdateData) (remote : RemoteCall) (st : St) :
    OpResult :=
  if userId = "" then ⟨⟨400, "userId is required"⟩, st, []⟩
  else
    match findUser st userId with
    | none => ⟨⟨404, "User not found"⟩, st, []⟩
    | some user =>
      match findBotById st botId with
      | none => ⟨⟨404, "Bot not found or access denied"⟩, st, []⟩
      | some bot =>
        if bot.user ≠ user.uid then
          ⟨⟨404, "Bot not found or access denied"⟩, st, []⟩
        else if !jsTruthyOptNat bot.threeCommasBotId then
          ⟨⟨400, "Bot not linked to 3Commas"⟩, st, []⟩
        else
          let path := "/ver1/bots/" ++ toString (bot.threeCommasBotId.getD 0)
          match remote with
          | .failure _ =>
            ⟨⟨400, "Failed to update bot in 3Commas"⟩, st,
             [⟨path, serializeJson (updateDataJson upd), some (updateDataJson upd)⟩]⟩
          | .success =>
            if updValid upd then
              ⟨⟨200, "Bot updated successfully"⟩,
               { st with
                 bots := st.bots.map (fun b => if b.id == botId then applyUpdate b upd else b) },
               [⟨path, serializeJson (updateDataJson upd), some (updateDataJson upd)⟩]⟩
            else
              ⟨⟨500, "Failed to update bot"⟩, st,
               [⟨path, serializeJson (updateDataJson upd), some (updateDataJson upd)⟩]⟩

/-! ## duplicateBot (botController.js lines 830-973) -/

/-- Lines 872-899: the remote create payload for a duplicate, built from
the source record's configuration with the new name and `active: false`. -/
structure RemoteBotPayload where
  name : String
  account_id : Option Nat
  pair : String
  strategy : String
  bot_type : String
  profit_currency : String
  base_order_volume : Int
  start_order_type : String
  take_profit_type : String
  take_profit : Int
  safety_order_type : String
  safety_order_volume : Int
  max_safety_orders : Int
  safety_order_step_percentage : Int
  max_active_deals : Int
  active : Bool
  martingale_volume_coefficient : Int
  martingale_step_coefficient : Int
  stop_loss_percentage : Int
  cooldown : Int
  btc_price_limit : Int
  note : String

def dupPayload (orig : BotRecord) (newName userId : String) (accountId : Option Nat) :
    RemoteBotPayload :=
  { name := newName
    account_id := accountId
    pair := orig.pair
    strategy := orig.strategy
    bot_type := if orig.botType = "single" then "simple" else "composite"
    profit_currency := orig.profitCurrency
    base_order_volume := orig.baseOrderSize
    start_order_type := orig.startOrderType
    take_profit_type := orig.takeProfitType
    take_profit := orig.targetProfitPercent
    safety_order_type := "market"
    safety_order_volume := orig.safetyOrderVolume
    max_safety_orders := orig.maxSafetyOrders
    safety_order_step_percentage := orig.safetyOrderStepPercentage
    max_active_deals := 1
    active := false
    martingale_volume_coefficient := 1
    martingale_step_coefficient := 1
    stop_loss_percentage := orig.stopLossPercentage
    cooldown := orig.cooldown
    btc_price_limit := 0
    note := "Bot duplicated from " ++ orig.name ++ " for " ++ userId }

/-- JSON.stringify field order of the duplicate payload object literal
(first occurrence of each key). -/
def dupPayloadJson (p : RemoteBotPayload) : Json :=
  Json.obj
    [("name", .str p.name),
     ("account_id", match p.account_id with | none => .undef | some a => .num (Int.ofNat a)),
     ("pair", .str p.pair),
     ("strategy", .str p.strategy),
     ("bot_type", .str p.bot_type),
     ("profit_currency", .str p.profit_currency),
     ("base_order_volume", .num p.base_order_volume),
     ("start_order_type", .str p.start_order_type),
     ("take_profit_type", .str p.take_profit_type),
     ("take_profit", .num p.take_profit),
     ("safety_order_type", .str p.safety_order_type),
     ("safety_order_volume", .num p.safety_order_volume),
     ("max_safety_orders", .num p.max_safety_orders),
     ("safety_order_step_percentage", .num p.safety_order_step_percentage),
     ("safety_order_volume_type", .str "quote_currency"),
     ("max_active_deals", .num p.max_active_deals),
     ("active", .bool p.active),
     ("martingale_volume_coefficient", .num p.martingale_volume_coefficient),
     ("martingale_step_coefficient", .num p.martingale_step_coefficient),
     ("stop_loss_percentage", .num p.stop_loss_percentage),
     ("cooldown", .num p.cooldown),
     ("btc_price_limit", .num p.btc_price_limit),
     ("strategy_list", .arr []),
     ("base_order_volume_type", .str "quote_currency"),
     ("note", .str p.note)]

/-- Lines 931-952: the duplicated mirror record — source configuration,
new name, status "paused", configVersion bumped by one. -/
def dupRecord (id : Nat) (u : User) (orig : BotRecord) (newName userId : String)
    (remoteId : Nat) : BotRecord :=
  { id := id
    user := u.uid
    name := newName
    exchangeId := u.threeCommasAccountId.getD 0
    pair := orig.pair
    strategy := orig.strategy
    botType := orig.botType
    profitCurrency := orig.profitCurrency
    baseOrderSize := orig.baseOrderSize
    startOrderType := orig.startOrderType
    takeProfitType := orig.takeProfitType
    targetProfitPercent := orig.targetProfitPercent
    safetyOrderVolume := orig.safetyOrderVolume
    maxSafetyOrders := orig.maxSafetyOrders
    safetyOrderStepPercentage := orig.safetyOrderStepPercentage
    stopLossPercentage := orig.stopLossPercentage
    cooldown := orig.cooldown
    note := "Bot duplicated from " ++ orig.name ++ " for " ++ userId
    threeCommasBotId := some remoteId
    status := "paused"
    totalDeals := 0
    totalProfit := 0
    configVersion := orig.configVersion + 1 }

/-- exports.duplicateBot: input guard, user lookup, source ownership
check (404 on missing or not owned), duplicate-name check, remote create
with `active: false`, and on remote success the paused local record with
bumped configVersion. -/
def duplicateBot (botId : Nat) (userId newName : String) (remote : RemoteCreate) (st : St) :
    OpResult :=
  if userId = "" ∨ newName = "" then ⟨⟨400, "userId and newName are required"⟩, st, []⟩
  else
    match findUser st userId with
    | none => ⟨⟨404, "User not found"⟩, st, []⟩
    | some user =>
      match findBotById st botId with
      | none => ⟨⟨404, "Bot not found or access denied"⟩, st, []⟩
      | some orig =>
        if orig.user ≠ user.uid then
          ⟨⟨404, "Bot not found or access denied"⟩, st, []⟩
        else
          match findBotByOwnerName st user.uid newName with
          | some _ =>
            ⟨⟨400, "A bot with this name already exists. Please choose a different name."⟩, st, []⟩
          | none =>
            let payload := dupPayload orig newName userId user.threeCommasAccountId
            match remote with
            | .failure _ =>
              ⟨⟨400, "Failed to duplicate bot in 3Commas"⟩, st,
               [⟨"/ver1/bots", serializeJson (dupPayloadJson payload),
                 some (dupPayloadJson payload)⟩]⟩
            | .success remoteId =>
              ⟨⟨201, "Bot duplicated successfully"⟩,
               { st with bots := st.bots ++ [dupRecord st.nextId user orig newName userId remoteId],
                         nextId := st.nextId + 1 },
               [⟨"/ver1/bots", serializeJson (dupPayloadJson payload),
                 some (dupPayloadJson payload)⟩]⟩

/-! ## List helper lemmas -/

theorem find?_append_of_none {α : Type} {p : α → Bool} {l₁ l₂ : List α}
    (h : l₁.find? p = none) : (l₁ ++ l₂).find? p = l₂.find? p := by
  simp [List.find?_append, h]

theorem countP_eq_zero_of_find?_none {α : Type} {p : α → Bool} {l : List α}
    (h : l.find? p = none) : l.countP p = 0 :=
  List.countP_eq_zero.mpr (List.find?_eq_none.mp h)

theorem find?_filter_not_self {α : Type} (p : α → Bool) (l : List α) :
    (l.filter (fun x => !(p x))).find? p = none := by
  rw [List.find?_filter, List.find?_eq_none]
  intro x hx
  cases hpx : p x <;> simp [hpx]

theorem find?_map_of_pred_preserved {α : Type} {p : α → Bool} {g : α → α} {l : List α} {b : α}
    (hg : ∀ x, p (g x) = p x) (h : l.find? p = some b) :
    (l.map g).find? p = some (g b) := by
  rw [List.find?_map]
  have hpg : p ∘ g = p := funext hg
  rw [hpg, h]
  rfl

/-! ## Concrete fixtures used by the witnesses -/

def exUser : User := { uid := 1, userId := "u1", threeCommasAccountId := some 77 }

def exBotRunning : BotRecord :=
  { id := 10, user := 1, name := "My Bot", exchangeId := 77, pair := "BTC_USDT",
    strategy := "long", botType := "single", profitCurrency := "quote",
    baseOrderSize := 100, startOrderType := "market", takeProfitType := "total",
    targetProfitPercent := 2, safetyOrderVolume := 100, maxSafetyOrders := 5,
    safetyOrderStepPercentage := 2, stopLossPercentage := 0, cooldown := 0,
    note := "", threeCommasBotId := some 555, status := "running",
    totalDeals := 0, totalProfit := 0, configVersion := 1 }

def exBotPaused : BotRecord :=
  { exBotRunning with id := 11, name := "Paused Bot", status := "paused" }

def exBotNoRemote : BotRecord :=
  { exBotRunning with id := 12, name := "Unlinked Bot", threeCommasBotId := none }

def exSt : St := { users := [exUser], bots := [exBotRunning, exBotPaused, exBotNoRemote], nextId := 20 }

def exStEmpty : St := { users := [exUser], bots := [], nextId := 2 }

def exCreateReq : CreateReq :=
  { userId := "u1", botName := "New Bot", direction := "long", botType := "single",
    pair := "BTC_USDT", profitCurrency := "quote", baseOrderSize := 100,
    startOrderType := "market", takeProfitType := "total", targetProfitPercent := 2,
    safetyOrderVolume := none, maxSafetyOrders := none, safetyOrderStepPercentage := none,
    stopLossPercentage := none, cooldown := none, note := none }

/-! ## C1 -/

/-- Any createBot run whose remote call fails leaves the store
untouched. -/
theorem createBot_failure_state (req : CreateReq) (e : String) (st : St) :
    (createBot req (RemoteCreate.failure e) st).st = st := by
  unfold createBot
  repeat' first | rfl | split

/-- Repeated create attempts with the same request, each failing
remotely. -/
def iterateCreateFailure (req : CreateReq) (e : String) : Nat → St → St
  | 0, st => st
  | Nat.succ n, st => iterateCreateFailure req e n ((createBot req (RemoteCreate.failure e) st).st)

/-- C1: for every create-bot request whose remote create call fails, no
local bot record is created: the store is unchanged, and when no record
with the requester's (owner, name) existed before, none exists after any
number of repeated failing attempts with the same name. -/
theorem createBot_remote_failure_no_local_record
    (req : CreateReq) (e : String) (st : St) (u : User) (n : Nat)
    (hu : findUser st req.userId = some u)
    (h0 : findBotByOwnerName st u.uid req.botName = none) :
    iterateCreateFailure req e n st = st ∧
    findBotByOwnerName (iterateCreateFailure req e n st) u.uid req.botName = none := by
  have hfix : ∀ s, iterateCreateFailure req e n s = s := by
    intro s
    induction n generalizing s with
    | zero => rfl
    | succ m ih =>
      show iterateCreateFailure req e m _ = s
      rw [createBot_failure_state, ih]
  exact ⟨hfix st, by rw [hfix st]; exact h0⟩

theorem createBot_remote_failure_no_local_record_witness :
    iterateCreateFailure exCreateReq "network down" 3 exStEmpty = exStEmpty ∧
    findBotByOwnerName (iterateCreateFailure exCreateReq "network down" 3 exStEmpty)
      exUser.uid exCreateReq.botName = none :=
  createBot_remote_failure_no_local_record exCreateReq "network down" exStEmpty exUser 3
    (by decide) (by decide)

/-! ## C2 -/

/-- axios's serialization of the literal empty object is the two-byte
body consisting of the open and close braces. -/
theorem emptyObjTransmitted : axiosJsonBody (Json.obj []) = "\x7b\x7d" := rfl

/-- C2 counterexample: pauseBot on a concrete store issues a remote call
whose digest was computed over the empty body string while axios
transmits the two-byte serialization of the literal empty object, so
the signed bytes and the transmitted bytes differ for that signed
remote call — refuting the claim for every signed remote call. -/
theorem pause_signed_body_differs_cex :
    (pauseBot 10 "u1" RemoteCall.success exSt).calls.map
        (fun r => (r.signedBody, transmittedBody r)) = [("", "\x7b\x7d")] ∧
    ("" : String) ≠ "\x7b\x7d" := by
  exact ⟨rfl, by decide⟩

/-- C2 (amended): for createBot, updateBot and duplicateBot every issued
remote call's digest is computed over bytes identical to the transmitted
body (both are JSON.stringify of the same payload object), deleteBot
signs the empty string and transmits no body, and any request routed
through the threeCommas.js interceptor signs exactly what is
transmitted; but the empty-payload POST operations pauseBot and startBot
(and the panic-sell emergency stop, built the same way) sign the empty
string while axios transmits the two-byte body for the literal empty
object, so there the signed and transmitted bytes differ. -/
theorem signed_vs_transmitted_bodies
    (req : CreateReq) (rcr : RemoteCreate) (st : St) (botId : Nat)
    (userId newName : String) (upd : UpdateData) (rc : RemoteCall) (d : Option Json) :
    ((createBot req rcr st).calls.all
      (fun r => transmittedBody r == r.signedBody)) = true ∧
    ((updateBot botId userId upd rc st).calls.all
      (fun r => transmittedBody r == r.signedBody)) = true ∧
    ((duplicateBot botId userId newName rcr st).calls.all
      (fun r => transmittedBody r == r.signedBody)) = true ∧
    ((deleteBot botId userId rc st).calls.all
      (fun r => transmittedBody r == r.signedBody)) = true ∧
    ((pauseBot botId userId rc st).calls.all
      (fun r => r.signedBody == "" && transmittedBody r == "\x7b\x7d")) = true ∧
    ((startBot botId userId rc st).calls.all
      (fun r => r.signedBody == "" && transmittedBody r == "\x7b\x7d")) = true ∧
    interceptorSignedBody d = interceptorTransmittedBody d := by
  refine ⟨?_, ?_, ?_, ?_, ?_, ?_, ?_⟩
  · simp only [createBot]
    repeat' first | rfl | split
    all_goals simp [transmittedBody, axiosJsonBody]
  · simp only [updateBot]
    repeat' first | rfl | split
    all_goals simp [transmittedBody, axiosJsonBody]
  · simp only [duplicateBot]
    repeat' first | rfl | split
    all_goals simp [transmittedBody, axiosJsonBody]
  · simp only [deleteBot]
    repeat' first | rfl | split
  · simp only [pauseBot]
    repeat' first | rfl | split
  · simp only [startBot]
    repeat' first | rfl | split
  · cases d <;> rfl

/-! ## C3 -/

/-- C3: for every (path, query, body), the request signature produced by
createSignatureFromParts is the hex-encoded HMAC-SHA256 digest, keyed
with the platform API secret, of exactly the concatenation of the fixed
API path prefix, the path, "?"+query only when the query is non-empty,
and then the raw body. -/
theorem signature_is_hmac_of_canonical_string
    (secret path queryString bodyString : String) :
    createSignatureFromParts secret path queryString bodyString =
      hmacSha256Hex secret
        (apiBasePath ++ path ++ (if queryString ≠ "" then "?" ++ queryString else "") ++
          bodyString) := by
  by_cases hb : bodyString = "" <;>
    simp [createSignatureFromParts, buildStringToSign, hb]

/-! ## C4 -/

def exBadCreateReq : CreateReq := { exCreateReq with maxSafetyOrders := some 30 }

/-- C4 counterexample: a create request that passes the controller's
own validation but violates the bot schema (maxSafetyOrders = 30 > 25):
after a successful remote create, newBot.save() throws, the outer catch
answers 500 and nothing is persisted, so no record for the requested
(owner, name) exists — refuting the claim that a successful remote
create always leaves exactly one running record. -/
theorem createBot_schema_invalid_cex :
    createValidation exBadCreateReq = none ∧
    (createBot exBadCreateReq (RemoteCreate.success 999) exStEmpty).resp.status = 500 ∧
    (createBot exBadCreateReq (RemoteCreate.success 999) exStEmpty).st = exStEmpty ∧
    findBotByOwnerName (createBot exBadCreateReq (RemoteCreate.success 999) exStEmpty).st
      exUser.uid exBadCreateReq.botName = none := by
  exact ⟨by decide, by decide, by decide, by decide⟩

/-- C4 (amended): for every create-bot request that passes validation,
for a user with a linked remote account and no existing record under the
requested name, and whose constructed record passes the bot schema
validators run by save() (maxSafetyOrders 1-25, safetyOrderStepPercentage
0.1-50, stopLossPercentage 0-100, cooldown >= 0, valid enums), a
successful remote create leaves exactly one local record for that
(owner, name); its remote bot id is the id the remote call returned and
its status is "running". -/
theorem createBot_remote_success_exactly_one
    (req : CreateReq) (remoteId : Nat) (st : St) (u : User)
    (hval : createValidation req = none)
    (hu : findUser st req.userId = some u)
    (hacct : jsTruthyOptNat u.threeCommasAccountId = true)
    (h0 : findBotByOwnerName st u.uid req.botName = none)
    (hschema : botSchemaValid (mkNewBot st.nextId u req remoteId) = true) :
    (createBot req (RemoteCreate.success remoteId) st).resp.status = 201 ∧
    ((createBot req (RemoteCreate.success remoteId) st).st.bots.countP
      (fun b => b.user == u.uid && b.name == req.botName)) = 1 ∧
    ∃ b, findBotByOwnerName (createBot req (RemoteCreate.success remoteId) st).st
        u.uid req.botName = some b ∧
      b.threeCommasBotId = some remoteId ∧ b.status = "running" := by
  have hbots : (createBot req (RemoteCreate.success remoteId) st).st.bots
      = st.bots ++ [mkNewBot st.nextId u req remoteId] := by
    simp [createBot, hval, hu, hacct, h0, hschema]
  have hpred : (fun b => b.user == u.uid && b.name == req.botName)
      (mkNewBot st.nextId u req remoteId) = true := by
    simp [mkNewBot]
  refine ⟨by simp [createBot, hval, hu, hacct, h0, hschema], ?_, ?_⟩
  · rw [hbots, List.countP_append, countP_eq_zero_of_find?_none h0]
    simp [List.countP_cons, hpred]
  · refine ⟨mkNewBot st.nextId u req remoteId, ?_, rfl, rfl⟩
    unfold findBotByOwnerName
    rw [hbots, find?_append_of_none h0]
    simp [List.find?_cons, hpred]

theorem createBot_remote_success_exactly_one_witness :
    (createBot exCreateReq (RemoteCreate.success 999) exStEmpty).resp.status = 201 ∧
    ((createBot exCreateReq (RemoteCreate.success 999) exStEmpty).st.bots.countP
      (fun b => b.user == exUser.uid && b.name == exCreateReq.botName)) = 1 ∧
    ∃ b, findBotByOwnerName (createBot exCreateReq (RemoteCreate.success 999) exStEmpty).st
        exUser.uid exCreateReq.botName = some b ∧
      b.threeCommasBotId = some 999 ∧ b.status = "running" :=
  createBot_remote_success_exactly_one exCreateReq 999 exStEmpty exUser
    (by decide) (by decide) (by decide) (by decide) (by decide)

/-! ## C5 -/

/-- C5: for every delete request by the owner of a bot, the local record
is removed even when the remote delete call fails: the operation still
responds 200 and the record is no longer retrievable, the remote failure
being logged only. -/
theorem deleteBot_remote_failure_local_removed
    (botId : Nat) (userId e : String) (st : St) (b : BotRecord)
    (hb : validateOwnership st botId userId = Except.ok b) :
    (deleteBot botId userId (RemoteCall.failure e) st).resp.status = 200 ∧
    findBotById (deleteBot botId userId (RemoteCall.failure e) st).st botId = none := by
  refine ⟨by simp [deleteBot, hb], ?_⟩
  unfold findBotById
  simp only [deleteBot, hb]
  exact find?_filter_not_self (fun x => x.id == botId) st.bots

theorem deleteBot_remote_failure_local_removed_witness :
    (deleteBot 10 "u1" (RemoteCall.failure "remote down") exSt).resp.status = 200 ∧
    findBotById (deleteBot 10 "u1" (RemoteCall.failure "remote down") exSt).st 10 = none :=
  deleteBot_remote_failure_local_removed 10 "u1" "remote down" exSt exBotRunning (by rfl)

/-! ## C6 -/

/-- C6: pause is permitted only when the local status is "running": for
a bot whose status is "paused", "stopped", or "error", the pause request
returns the 400 precondition response "Bot is not currently running",
issues no remote call, writes nothing locally, and leaves the store (and
hence the bot's status) unchanged. -/
theorem pauseBot_requires_running
    (botId : Nat) (userId : String) (remote : RemoteCall) (st : St) (b : BotRecord)
    (hb : validateOwnership st botId userId = Except.ok b)
    (hs : b.status = "paused" ∨ b.status = "stopped" ∨ b.status = "error") :
    (pauseBot botId userId remote st).resp = ⟨400, "Bot is not currently running"⟩ ∧
    (pauseBot botId userId remote st).calls = [] ∧
    (pauseBot botId userId remote st).st = st := by
  have hne : b.status ≠ "running" := by
    rcases hs with h | h | h <;> simp [h]
  refine ⟨?_, ?_, ?_⟩ <;> simp [pauseBot, hb, hne]

theorem pauseBot_requires_running_witness :
    (pauseBot 11 "u1" RemoteCall.success exSt).resp = ⟨400, "Bot is not currently running"⟩ ∧
    (pauseBot 11 "u1" RemoteCall.success exSt).calls = [] ∧
    (pauseBot 11 "u1" RemoteCall.success exSt).st = exSt :=
  pauseBot_requires_running 11 "u1" RemoteCall.success exSt exBotPaused
    (by rfl) (Or.inl (by decide))

/-! ## C10 -/

/-- C10: for every delete request by the owner of a bot whose remote bot
id is null, no remote platform call is issued at all, the local record
is still removed, and the operation responds 200 — regardless of what a
remote call would have returned. -/
theorem deleteBot_unlinked_no_remote_call
    (botId : Nat) (userId : String) (remote : RemoteCall) (st : St) (b : BotRecord)
    (hb : validateOwnership st botId userId = Except.ok b)
    (hnull : b.threeCommasBotId = none) :
    (deleteBot botId userId remote st).calls = [] ∧
    (deleteBot botId userId remote st).resp.status = 200 ∧
    findBotById (deleteBot botId userId remote st).st botId = none := by
  refine ⟨by simp [deleteBot, hb, hnull, jsTruthyOptNat], by simp [deleteBot, hb], ?_⟩
  unfold findBotById
  simp only [deleteBot, hb]
  exact find?_filter_not_self (fun x => x.id == botId) st.bots

theorem deleteBot_unlinked_no_remote_call_witness :
    (deleteBot 12 "u1" RemoteCall.success exSt).calls = [] ∧
    (deleteBot 12 "u1" RemoteCall.success exSt).resp.status = 200 ∧
    findBotById (deleteBot 12 "u1" RemoteCall.success exSt).st 12 = none :=
  deleteBot_unlinked_no_remote_call 12 "u1" RemoteCall.success exSt exBotNoRemote
    (by rfl) (by decide)

/-! ## C7 -/

def exBadUpd : UpdateData := { maxSafetyOrders := some 30 }

/-- C7 counterexample: an update submission violating a schema validator
(maxSafetyOrders = 30 > 25) by the owner of a remote-linked bot: the
remote update succeeds, then findByIdAndUpdate with runValidators throws
and the source answers 500 with the local record unchanged — the record
is not overwritten with the submitted fields, refuting the claim that
remote success always yields the local overwrite. -/
theorem updateBot_validator_failure_cex :
    (updateBot 10 "u1" exBadUpd RemoteCall.success exSt).resp.status = 500 ∧
    (updateBot 10 "u1" exBadUpd RemoteCall.success exSt).st = exSt ∧
    findBotById (updateBot 10 "u1" exBadUpd RemoteCall.success exSt).st 10
      ≠ some (applyUpdate exBotRunning exBadUpd) := by
  exact ⟨by decide, by decide, by decide⟩

/-- C7 (amended): for an update request by the owner of a bot with a
linked remote id, a failing remote update leaves the store entirely
unchanged; when the remote update succeeds and the submitted fields pass
the schema validators run by findByIdAndUpdate (runValidators), exactly
the submitted fields of that record are overwritten (every other record
untouched) and the record retrievable by id afterwards is the field-wise
update of the old one; when the submitted fields fail those validators
the operation answers 500 and the store is also entirely unchanged. -/
theorem updateBot_all_or_nothing
    (botId : Nat) (userId e : String) (upd : UpdateData) (st : St) (u : User) (b : BotRecord)
    (hid : userId ≠ "")
    (hu : findUser st userId = some u)
    (hb : findBotById st botId = some b)
    (hown : b.user = u.uid)
    (hlink : jsTruthyOptNat b.threeCommasBotId = true) :
    (updateBot botId userId upd (RemoteCall.failure e) st).st = st ∧
    (updValid upd = true →
      (updateBot botId userId upd RemoteCall.success st).st.bots
        = st.bots.map (fun x => if x.id == botId then applyUpdate x upd else x) ∧
      findBotById (updateBot botId userId upd RemoteCall.success st).st botId
        = some (applyUpdate b upd)) ∧
    (updValid upd = false →
      (updateBot botId userId upd RemoteCall.success st).st = st ∧
      (updateBot botId userId upd RemoteCall.success st).resp.status = 500) := by
  have hnown : ¬b.user ≠ u.uid := by simp [hown]
  refine ⟨?_, ?_, ?_⟩
  · simp [updateBot, hid, hu, hb, hnown, hlink]
  · intro hv
    have h2 : (updateBot botId userId upd RemoteCall.success st).st.bots
        = st.bots.map (fun x => if x.id == botId then applyUpdate x upd else x) := by
      simp [updateBot, hid, hu, hb, hnown, hlink, hv]
    refine ⟨h2, ?_⟩
    have hpb0 := List.find?_some (show st.bots.find? (fun x => x.id == botId) = some b from hb)
    have hpb : (b.id == botId) = true := by simpa using hpb0
    have hg : ∀ x : BotRecord,
        ((if x.id == botId then applyUpdate x upd else x).id == botId) = (x.id == botId) := by
      intro x
      by_cases hx : x.id = botId <;> simp [hx, applyUpdate]
    have hfind := find?_map_of_pred_preserved (p := fun x : BotRecord => x.id == botId)
      (g := fun x => if x.id == botId then applyUpdate x upd else x) hg
      (show st.bots.find? (fun x => x.id == botId) = some b from hb)
    unfold findBotById
    rw [h2, hfind]
    simp [hpb]
  · intro hv
    constructor <;> simp [updateBot, hid, hu, hb, hnown, hlink, hv]

def exUpd : UpdateData := { name := some "Renamed", targetProfitPercent := some 3 }

theorem updateBot_all_or_nothing_witness :
    (updateBot 10 "u1" exUpd (RemoteCall.failure "remote down") exSt).st = exSt ∧
    (updValid exUpd = true →
      (updateBot 10 "u1" exUpd RemoteCall.success exSt).st.bots
        = exSt.bots.map (fun x => if x.id == 10 then applyUpdate x exUpd else x) ∧
      findBotById (updateBot 10 "u1" exUpd RemoteCall.success exSt).st 10
        = some (applyUpdate exBotRunning exUpd)) ∧
    (updValid exUpd = false →
      (updateBot 10 "u1" exUpd RemoteCall.success exSt).st = exSt ∧
      (updateBot 10 "u1" exUpd RemoteCall.success exSt).resp.status = 500) :=
  updateBot_all_or_nothing 10 "u1" "remote down" exUpd exSt exUser exBotRunning
    (by decide) (by decide) (by decide) (by decide) (by decide)

/-! ## C8 -/

/-- C8: for every successful duplicate operation the new record's
configVersion equals the source record's configVersion plus one and its
status is "paused" regardless of the source's status, while the remote
create payload sent for the duplicate has active = false. -/
theorem duplicateBot_paused_and_version_bump
    (botId : Nat) (userId newName : String) (remoteId : Nat) (st : St) (u : User)
    (orig : BotRecord)
    (hid : userId ≠ "") (hname : newName ≠ "")
    (hu : findUser st userId = some u)
    (hb : findBotById st botId = some orig)
    (hown : orig.user = u.uid)
    (hdup : findBotByOwnerName st u.uid newName = none) :
    (duplicateBot botId userId newName (RemoteCreate.success remoteId) st).resp.status = 201 ∧
    (∃ nb, findBotByOwnerName
        (duplicateBot botId userId newName (RemoteCreate.success remoteId) st).st
        u.uid newName = some nb ∧
      nb.configVersion = orig.configVersion + 1 ∧ nb.status = "paused") ∧
    (dupPayload orig newName userId u.threeCommasAccountId).active = false ∧
    (duplicateBot botId userId newName (RemoteCreate.success remoteId) st).calls
      = [⟨"/ver1/bots",
          serializeJson (dupPayloadJson (dupPayload orig newName userId u.threeCommasAccountId)),
          some (dupPayloadJson (dupPayload orig newName userId u.threeCommasAccountId))⟩] := by
  have hguard : ¬(userId = "" ∨ newName = "") := by simp [hid, hname]
  have hnown : ¬orig.user ≠ u.uid := by simp [hown]
  refine ⟨by simp [duplicateBot, hguard, hu, hb, hnown, hdup], ?_, rfl,
    by simp [duplicateBot, hguard, hu, hb, hnown, hdup]⟩
  have h2 : (duplicateBot botId userId newName (RemoteCreate.success remoteId) st).st.bots
      = st.bots ++ [dupRecord st.nextId u orig newName userId remoteId] := by
    simp [duplicateBot, hguard, hu, hb, hnown, hdup]
  refine ⟨dupRecord st.nextId u orig newName userId remoteId, ?_, rfl, rfl⟩
  unfold findBotByOwnerName
  rw [h2, find?_append_of_none
    (show st.bots.find? (fun b => b.user == u.uid && b.name == newName) = none from hdup)]
  simp [List.find?_cons, dupRecord]

theorem duplicateBot_paused_and_version_bump_witness :
    (duplicateBot 10 "u1" "Copy Bot" (RemoteCreate.success 777) exSt).resp.status = 201 ∧
    (∃ nb, findBotByOwnerName
        (duplicateBot 10 "u1" "Copy Bot" (RemoteCreate.success 777) exSt).st
        exUser.uid "Copy Bot" = some nb ∧
      nb.configVersion = exBotRunning.configVersion + 1 ∧ nb.status = "paused") ∧
    (dupPayload exBotRunning "Copy Bot" "u1" exUser.threeCommasAccountId).active = false ∧
    (duplicateBot 10 "u1" "Copy Bot" (RemoteCreate.success 777) exSt).calls
      = [⟨"/ver1/bots",
          serializeJson (dupPayloadJson (dupPayload exBotRunning "Copy Bot" "u1"
            exUser.threeCommasAccountId)),
          some (dupPayloadJson (dupPayload exBotRunning "Copy Bot" "u1"
            exUser.threeCommasAccountId))⟩] :=
  duplicateBot_paused_and_version_bump 10 "u1" "Copy Bot" 777 exSt exUser exBotRunning
    (by decide) (by decide) (by decide) (by decide) (by decide) (by decide)

/-! ## C9 -/

/-- C9 counterexample: the failure mode for a missing target record is
not uniform across mutating operations — on the same store, a pause
request for an absent bot id answers 403 while an update request for
the same absent bot id answers 404 (a generic not-found status), so it
is false that every mutating operation yields an authorization failure
rather than a not-found. -/
theorem ownership_failure_not_uniform_cex :
    (pauseBot 5 "u1" RemoteCall.success exStEmpty).resp.status = 403 ∧
    (updateBot 5 "u1" {} RemoteCall.success exStEmpty).resp.status = 404 ∧
    (updateBot 5 "u1" {} RemoteCall.success exStEmpty).resp.status ≠ 403 := by
  exact ⟨rfl, rfl, by decide⟩

/-- C9 (amended): when the target record is missing, or it exists but is
not owned by the requesting principal, pauseBot, startBot and deleteBot
fail with a 403 authorization response, while updateBot and duplicateBot
fail with a 404 "Bot not found or access denied" response; the failure
status is therefore not uniform across mutating operations. -/
theorem mutating_ops_missing_or_unowned_statuses
    (botId : Nat) (userId newName : String) (upd : UpdateData)
    (rc : RemoteCall) (rcr : RemoteCreate) (st : St) (u : User)
    (hid : userId ≠ "") (hname : newName ≠ "")
    (hu : findUser st userId = some u)
    (hcase : findBotById st botId = none ∨
      ∃ b, findBotById st botId = some b ∧ b.user ≠ u.uid ∧
        ∀ ou, findUserById st b.user = some ou → ou.userId ≠ userId) :
    (pauseBot botId userId rc st).resp.status = 403 ∧
    (startBot botId userId rc st).resp.status = 403 ∧
    (deleteBot botId userId rc st).resp.status = 403 ∧
    (updateBot botId userId upd rc st).resp.status = 404 ∧
    (duplicateBot botId userId newName rcr st).resp.status = 404 := by
  have hvo : ∃ m, validateOwnership st botId userId = Except.error m := by
    rcases hcase with hmiss | ⟨b, hb, hneq, hou⟩
    · exact ⟨"Bot not found", by simp [validateOwnership, hmiss]⟩
    · cases hfin : findUserById st b.user with
      | none => exact ⟨"Unauthorized access", by simp [validateOwnership, hb, hfin]⟩
      | some ou =>
        exact ⟨"Unauthorized access", by simp [validateOwnership, hb, hfin, hou ou hfin]⟩
  obtain ⟨m, hm⟩ := hvo
  refine ⟨by simp [pauseBot, hm], by simp [startBot, hm], by simp [deleteBot, hm], ?_, ?_⟩
  · rcases hcase with hmiss | ⟨b, hb, hneq, h3⟩
    · simp [updateBot, hid, hu, hmiss]
    · simp [updateBot, hid, hu, hb, hneq]
  · have hguard : ¬(userId = "" ∨ newName = "") := by simp [hid, hname]
    rcases hcase with hmiss | ⟨b, hb, hneq, h3⟩
    · simp [duplicateBot, hguard, hu, hmiss]
    · simp [duplicateBot, hguard, hu, hb, hneq]

theorem mutating_ops_missing_or_unowned_statuses_witness :
    (pauseBot 5 "u1" RemoteCall.success exStEmpty).resp.status = 403 ∧
    (startBot 5 "u1" RemoteCall.success exStEmpty).resp.status = 403 ∧
    (deleteBot 5 "u1" RemoteCall.success exStEmpty).resp.status = 403 ∧
    (updateBot 5 "u1" exUpd RemoteCall.success exStEmpty).resp.status = 404 ∧
    (duplicateBot 5 "u1" "Copy X" (RemoteCreate.success 1) exStEmpty).resp.status = 404 :=
  mutating_ops_missing_or_unowned_statuses 5 "u1" "Copy X" exUpd RemoteCall.success
    (RemoteCreate.success 1) exStEmpty exUser (by decide) (by decide) (by decide)
    (Or.inl (by decide))
